import Mathlib

set_option autoImplicit false

/-!
Shallow embedding of the retry / error-classification layer of the
QPC-API-Modules repository (`src/utils/error_handling.py`).

Modelling conventions:
* JSON values are the inductive `Json`; a `requests.Response` is the structure
  `Response`, whose `json` field is `some j` when `response.json()` succeeds
  (returning `j`) and `none` when it raises `ValueError` (body not decodable).
* Python exceptions relevant to this layer are the inductive `PyErr`; functions
  that can raise return `Except PyErr _`.
* `time.sleep` calls are recorded in the result (the slept duration) instead of
  being performed.
* Floats are modelled by rationals; the fractional-second jitter source
  `time.time() % 1` is an explicit parameter `t` with `0 ≤ t < 1`.
-/

/-- A JSON value, as produced by `response.json()`. Object fields are kept in
order and assumed duplicate-free (Python's `json.loads` produces dicts). -/
inductive Json where
  | null
  | bool (b : Bool)
  | num (n : Int)
  | str (s : String)
  | arr (elems : List Json)
  | obj (fields : List (String × Json))

/-- Python `repr()` of a JSON value (string escaping inside literals is not
modelled; no claim exercises it). -/
def pyRepr : Json → String
  | .null => "None"
  | .bool true => "True"
  | .bool false => "False"
  | .num n => toString n
  | .str s => "'" ++ s ++ "'"
  | .arr xs => "[" ++ String.intercalate ", " (xs.attach.map (fun x => pyRepr x.1)) ++ "]"
  | .obj kvs =>
      "\x7b" ++
        String.intercalate ", "
          (kvs.attach.map (fun kv => "'" ++ kv.1.1 ++ "': " ++ pyRepr kv.1.2)) ++
      "\x7d"
decreasing_by
  · have := List.sizeOf_lt_of_mem x.2; simp at this ⊢; omega
  · obtain ⟨⟨k, v⟩, hmem⟩ := kv
    have := List.sizeOf_lt_of_mem hmem
    simp [Prod.mk.sizeOf_spec] at this ⊢; omega

/-- Python `str()` / f-string rendering of a JSON value. -/
def pyStr : Json → String
  | .str s => s
  | v => pyRepr v

/-- The Python exceptions this layer raises or inspects. The five `APIError`
kinds carry `(message, status_code, response)` as in the source constructors;
transport exceptions and builtin errors carry no payload the code reads. -/
inductive PyErr where
  | apiError (message : String) (status_code : Option Nat) (response : Option Json)
  | authenticationError (message : String) (status_code : Option Nat) (response : Option Json)
  | rateLimitError (message : String) (status_code : Option Nat) (response : Option Json)
  | validationError (message : String) (status_code : Option Nat) (response : Option Json)
  | retryableError (message : String) (status_code : Option Nat) (response : Option Json)
  | connectionError
  | timeout
  | httpError
  | valueError
  | typeError
  | keyError

/-- An HTTP response as this layer observes it: status code, raw text body,
the outcome of `response.json()` (`none` = decode raises `ValueError`), and
the value of `response.headers.get('Retry-After')`. -/
structure Response where
  status_code : Nat
  text : String
  json : Option Json
  retry_after : Option String

/-- Python `key in value` for a JSON value: key test on dicts, membership on
lists, substring test on strings, `TypeError` otherwise. -/
def pyContains (key : String) : Json → Except PyErr Bool
  | .obj kvs => .ok (kvs.any (fun kv => kv.1 == key))
  | .arr xs => .ok (xs.any (fun x => match x with | .str s => s == key | _ => false))
  | .str s => .ok ((s.splitOn key).length > 1)
  | _ => .error .typeError

/-- Python `value[key]` with a string key: dict lookup (KeyError when absent),
`TypeError` on any non-dict. -/
def pyGetItem (j : Json) (key : String) : Except PyErr Json :=
  match j with
  | .obj kvs =>
      match kvs.lookup key with
      | some v => .ok v
      | none => .error .keyError
  | _ => .error .typeError

/-- The `try/except ValueError` block of `ErrorHandler.handle_response` that
extends `error_message` with a detail: the decoded body's `message` field when
present, or the raw text when decoding raises `ValueError` (caught). A
`TypeError` from the `in` check or the subscript is not caught and escapes. -/
def buildErrorMessage (base : String) (r : Response) : Except PyErr String :=
  match r.json with
  | none => .ok (base ++ " - " ++ r.text)
  | some d =>
      match pyContains "message" d with
      | .error e => .error e
      | .ok true =>
          match pyGetItem d "message" with
          | .error e => .error e
          | .ok v => .ok (base ++ " - " ++ pyStr v)
      | .ok false => .ok base

/-- `ErrorHandler.handle_response(response, service)`: returns the parsed body
for status 200, otherwise builds the error message and raises the typed error,
re-calling `response.json()` (unguarded) for the error payload. -/
def handle_response (r : Response) (service : String) : Except PyErr Json :=
  if r.status_code == 200 then
    match r.json with
    | some j => .ok j
    | none => .error .valueError
  else
    let base := service ++ " API error: " ++ toString r.status_code
    match buildErrorMessage base r with
    | .error e => .error e
    | .ok error_message =>
        match r.json with
        | none => .error .valueError
        | some j =>
            if r.status_code == 401 || r.status_code == 403 then
              .error (.authenticationError error_message (some r.status_code) (some j))
            else if r.status_code == 429 then
              .error (.rateLimitError error_message (some r.status_code) (some j))
            else
              .error (.apiError error_message (some r.status_code) (some j))

/-- `ErrorHandler.is_retryable_error`: `isinstance` check against
`(ConnectionError, Timeout, RetryableError, requests.exceptions.HTTPError)`. -/
def is_retryable_error : PyErr → Bool
  | .connectionError => true
  | .timeout => true
  | .retryableError _ _ _ => true
  | .httpError => true
  | _ => false

/-- The exception filter installed by `retry_on_failure`:
`retry_if_exception_type((ConnectionError, Timeout, RetryableError))`. -/
def retryExceptionTypes : PyErr → Bool
  | .connectionError => true
  | .timeout => true
  | .retryableError _ _ _ => true
  | _ => false

/-- Python `int(s)` on a string: optional surrounding whitespace, optional
sign, decimal digits; `none` models the `ValueError` raise. (Underscore
separators and non-ASCII digits are not modelled; no claim uses them.) -/
def pyInt? (s : String) : Option Int :=
  let t := ((s.data.dropWhile Char.isWhitespace).reverse.dropWhile Char.isWhitespace).reverse
  let signDigits : Int × List Char :=
    match t with
    | '-' :: rest => (-1, rest)
    | '+' :: rest => (1, rest)
    | _ => (1, t)
  if signDigits.2 ≠ [] ∧ signDigits.2.all Char.isDigit then
    some (signDigits.1 *
      (signDigits.2.foldl (fun n c => n * 10 + ((c.toNat - '0'.toNat : Nat) : Int)) 0))
  else none

/-- `handle_rate_limit(response, service)`. The first component records the
`time.sleep` duration actually performed (`none` = no sleep happened); the
second is the control-flow outcome. For a 429: a truthy `Retry-After` header
is parsed with `int()` (`ValueError` escapes before any sleep; a negative
value makes `time.sleep` itself raise `ValueError`), an absent or empty
header falls back to a 60-second sleep; after sleeping the function raises
`RateLimitError` built from `response.json()` (whose own `ValueError`
escapes). Non-429 responses return immediately. -/
def handle_rate_limit (r : Response) (service : String) : Option Int × Except PyErr Unit :=
  if r.status_code == 429 then
    let raiseRateLimit : Int → Option Int × Except PyErr Unit := fun w =>
      match r.json with
      | some j =>
          (some w, .error (.rateLimitError (service ++ " rate limit exceeded") (some 429) (some j)))
      | none => (some w, .error .valueError)
    match r.retry_after with
    | some h =>
        if h ≠ "" then
          match pyInt? h with
          | some w => if w < 0 then (none, .error .valueError) else raiseRateLimit w
          | none => (none, .error .valueError)
        else raiseRateLimit 60
    | none => raiseRateLimit 60
  else (none, .ok ())

/-- `ErrorHandler.get_retry_delay(attempt, base_delay, max_delay)` over the
rationals; `t` stands for `time.time() % 1`, so is meaningful for `0 ≤ t < 1`.
Only `attempt ≥ 1` is modelled faithfully (the Nat exponent `attempt - 1`
truncates at 0, where Python would compute `2 ** (-1)`). -/
def get_retry_delay (attempt : Nat) (base_delay max_delay : ℚ) (t : ℚ) : ℚ :=
  let delay := min (base_delay * 2 ^ (attempt - 1)) max_delay
  let jitter := delay * (1 / 10) * (1 + t)
  delay + jitter

/-- Python `repr()` of a list of strings, as interpolated by the
`validate_input` error f-string. -/
def pyReprStringList (xs : List String) : String :=
  "[" ++ String.intercalate ", " (xs.map (fun s => "'" ++ s ++ "'")) ++ "]"

/-- `validate_input(data, required_fields, data_type)`: rejects non-dicts,
then collects the required fields absent from the dict (in order) and raises
`ValidationError` naming them; returns `()` when none are missing. -/
def validate_input (data : Json) (required_fields : List String) (data_type : String) :
    Except PyErr Unit :=
  match data with
  | .obj kvs =>
      let missing_fields := required_fields.filter (fun f => !(kvs.any (fun kv => kv.1 == f)))
      if missing_fields.isEmpty then .ok ()
      else
        .error (.validationError
          ("Missing required fields in " ++ data_type ++ ": " ++ pyReprStringList missing_fields)
          none none)
  | _ => .error (.validationError (data_type ++ " must be a dictionary") none none)

/-- Outcome of a `retry_on_failure`-wrapped call: a returned value, an
exception propagated unchanged, or a `tenacity.RetryError` wrapping the last
attempt's exception (tenacity's behaviour on exhaustion when `reraise` is left
at its default `False`). -/
inductive RetryOutcome (α : Type) where
  | ok (a : α)
  | raised (e : PyErr)
  | retryError (last : PyErr)

/-- One step of the tenacity loop, mirroring `BaseRetrying.iter`: run attempt
`n` (1-indexed); on success return; on an exception not matching the retry
filter re-raise it unchanged; otherwise check `stop_after_attempt maxAttempts`
(stop when `n ≥ maxAttempts`, raising `RetryError`), else sleep and go to
attempt `n + 1`. The second component counts invocations performed (= the
final attempt number). Sleep durations are irrelevant to the claims and not
recorded here. -/
def retryAux {α : Type} (pred : PyErr → Bool) (maxAttempts : Nat)
    (ops : Nat → Except PyErr α) (n : Nat) : RetryOutcome α × Nat :=
  match ops n with
  | .ok a => (.ok a, n)
  | .error e =>
      if pred e then
        if h : maxAttempts ≤ n then (.retryError e, n)
        else retryAux pred maxAttempts ops (n + 1)
      else (.raised e, n)
termination_by maxAttempts - n
decreasing_by omega

/-- `retry_on_failure(max_attempts)` applied to an operation whose successive
invocation outcomes are `ops 1, ops 2, ...` (the wrapped function is
deterministic per attempt index). Backoff sleeps (tenacity
`wait_exponential`) do not affect the outcome and are not modelled. -/
def retry_on_failure {α : Type} (max_attempts : Nat) (ops : Nat → Except PyErr α) :
    RetryOutcome α × Nat :=
  retryAux retryExceptionTypes max_attempts ops 1

/-- The `message` payload of a typed `APIError`-family exception. -/
def PyErr.message? : PyErr → Option String
  | .apiError m _ _ => some m
  | .authenticationError m _ _ => some m
  | .rateLimitError m _ _ => some m
  | .validationError m _ _ => some m
  | .retryableError m _ _ => some m
  | _ => none

/-- The `status_code` payload of a typed `APIError`-family exception. -/
def PyErr.statusCode? : PyErr → Option Nat
  | .apiError _ st _ => st
  | .authenticationError _ st _ => st
  | .rateLimitError _ st _ => st
  | .validationError _ st _ => st
  | .retryableError _ st _ => st
  | _ => none

/-- The `response` payload of a typed `APIError`-family exception. -/
def PyErr.responseBody? : PyErr → Option Json
  | .apiError _ _ b => b
  | .authenticationError _ _ b => b
  | .rateLimitError _ _ b => b
  | .validationError _ _ b => b
  | .retryableError _ _ b => b
  | _ => none

/-- Is this exception an `AuthenticationError`? -/
def PyErr.isAuthentication : PyErr → Bool
  | .authenticationError _ _ _ => true
  | _ => false

/-- Is this exception a `RateLimitError`? -/
def PyErr.isRateLimit : PyErr → Bool
  | .rateLimitError _ _ _ => true
  | _ => false

/-- Is this exception a `ValidationError`? -/
def PyErr.isValidation : PyErr → Bool
  | .validationError _ _ _ => true
  | _ => false

/-- The spec's kind/status invariant: `Authentication` carries status 401 or
403, `RateLimit` carries status 429. -/
def kindStatusInvariant : PyErr → Bool
  | .authenticationError _ st _ => st == some 401 || st == some 403
  | .rateLimitError _ st _ => st == some 429
  | _ => true

/-- Did the wrapped call propagate an exception unchanged? -/
def RetryOutcome.isRaised {α : Type} : RetryOutcome α → Bool
  | .raised _ => true
  | _ => false

/-- `Json.obj` field containment (`'message' in error_data`) agrees with
`List.lookup` being successful. -/
lemma any_fst_beq_eq_lookup_isSome (kvs : List (String × Json)) (k : String) :
    kvs.any (fun kv => kv.1 == k) = (kvs.lookup k).isSome := by
  induction kvs with
  | nil => rfl
  | cons hd tl ih =>
      obtain ⟨k0, v0⟩ := hd
      by_cases h : k = k0
      · subst h; simp [List.lookup]
      · have h1 : (k0 == k) = false := beq_eq_false_iff_ne.mpr (Ne.symm h)
        have h2 : (k == k0) = false := beq_eq_false_iff_ne.mpr h
        simp [List.lookup, h1, h2, ih]

/-- C10: for every response whose status code is not 429, `handle_rate_limit`
is a no-op — it performs no sleep, raises nothing, and returns `None`; it
sleeps and raises only at status 429. -/
theorem handle_rate_limit_non429_noop (r : Response) (s : String)
    (h : r.status_code ≠ 429) : handle_rate_limit r s = (none, .ok ()) := by
  simp [handle_rate_limit, h]

/-- Witness for C10 at a concrete 200 response. -/
theorem handle_rate_limit_non429_noop_witness :
    handle_rate_limit ⟨200, "ok", some (.obj []), some "7"⟩ "GitHub" = (none, .ok ()) :=
  handle_rate_limit_non429_noop ⟨200, "ok", some (.obj []), some "7"⟩ "GitHub" (by decide)

/-- C8: `validate_input` raises `Validation` on any non-mapping value, raises
`Validation` naming exactly the absent required keys when some are missing
(in particular `validate(\x7b"a":1\x7d, ["a","b"])` lists `'b'`), and returns
silently when every required key is present. -/
theorem validate_input_spec :
    (∀ (d : Json) (rf : List String) (dt : String), (∀ kvs, d ≠ .obj kvs) →
        validate_input d rf dt
          = .error (.validationError (dt ++ " must be a dictionary") none none))
  ∧ (∀ (kvs : List (String × Json)) (rf : List String) (dt : String),
        rf.filter (fun f => !(kvs.any (fun kv => kv.1 == f))) = [] →
        validate_input (.obj kvs) rf dt = .ok ())
  ∧ (∀ (kvs : List (String × Json)) (rf : List String) (dt : String)
        (missing : List String),
        missing = rf.filter (fun f => !(kvs.any (fun kv => kv.1 == f))) →
        missing ≠ [] →
        validate_input (.obj kvs) rf dt
          = .error (.validationError
              ("Missing required fields in " ++ dt ++ ": " ++ pyReprStringList missing)
              none none))
  ∧ validate_input (.obj [("a", .num 1)]) ["a", "b"] "input"
      = .error (.validationError "Missing required fields in input: ['b']" none none)
  ∧ validate_input (.obj [("a", .num 1), ("b", .num 2)]) ["a", "b"] "input" = .ok () := by
  refine ⟨?_, ?_, ?_, rfl, rfl⟩
  · intro d rf dt h
    match d with
    | .obj kvs => exact absurd rfl (h kvs)
    | .null | .bool _ | .num _ | .str _ | .arr _ => rfl
  · intro kvs rf dt h
    simp [validate_input, h]
  · intro kvs rf dt missing hm hne
    simp [validate_input, ← hm, List.isEmpty_iff, hne]

/-- Witness for C8: a non-mapping input is rejected with the dictionary
message. -/
theorem validate_input_spec_witness :
    validate_input (.num 3) ["a"] "input"
      = .error (.validationError "input must be a dictionary" none none) :=
  validate_input_spec.1 (.num 3) ["a"] "input" (fun _ h => Json.noConfusion h)

/-- C9: `is_retryable_error` is true exactly on `ConnectionError`, `Timeout`,
`RetryableError` and `requests.exceptions.HTTPError`; `HTTPError` is retryable
for this predicate but is absent from `retry_on_failure`'s own filter
`retryExceptionTypes`, which is the only point where the two disagree. -/
theorem is_retryable_error_spec :
    (∀ e : PyErr, is_retryable_error e = true ↔
        (e = .connectionError ∨ e = .timeout ∨ e = .httpError ∨
         ∃ m st b, e = .retryableError m st b))
  ∧ is_retryable_error .httpError = true
  ∧ retryExceptionTypes .httpError = false
  ∧ (∀ e : PyErr, e ≠ .httpError → is_retryable_error e = retryExceptionTypes e) := by
  refine ⟨?_, rfl, rfl, ?_⟩
  · intro e
    cases e <;> simp [is_retryable_error]
  · intro e he
    cases e <;> simp_all [is_retryable_error, retryExceptionTypes]

/-- Witness for C9: the two predicates agree on `Timeout`. -/
theorem is_retryable_error_spec_witness :
    is_retryable_error .timeout = retryExceptionTypes .timeout :=
  is_retryable_error_spec.2.2.2 .timeout (fun h => PyErr.noConfusion h)

/-- C2: the retry filter accepts exactly transport connection errors,
transport timeouts and the `Retryable` kind; an operation whose first failure
is `Authentication`, `RateLimit`, `Validation` or `Generic` is invoked exactly
once and that exception propagates unchanged at once. -/
theorem retry_non_retryable_single_invocation :
    (∀ e : PyErr, retryExceptionTypes e = true ↔
        (e = .connectionError ∨ e = .timeout ∨ ∃ m st b, e = .retryableError m st b))
  ∧ (∀ m st b,
        retryExceptionTypes (.authenticationError m st b) = false ∧
        retryExceptionTypes (.rateLimitError m st b) = false ∧
        retryExceptionTypes (.validationError m st b) = false ∧
        retryExceptionTypes (.apiError m st b) = false)
  ∧ (∀ (α : Type) (maxAttempts : Nat) (ops : Nat → Except PyErr α) (e : PyErr),
        retryExceptionTypes e = false → ops 1 = .error e →
        retry_on_failure maxAttempts ops = (.raised e, 1)) := by
  refine ⟨?_, ?_, ?_⟩
  · intro e; cases e <;> simp [retryExceptionTypes]
  · intro m st b; exact ⟨rfl, rfl, rfl, rfl⟩
  · intro α maxAttempts ops e hpred hops
    rw [retry_on_failure, retryAux, hops]
    simp [hpred]

/-- Witness for C2: an always-`Authentication` operation fails immediately
after one invocation. -/
theorem retry_non_retryable_single_invocation_witness :
    retry_on_failure 3
        (fun _ => (.error (.authenticationError "no" (some 401) none) : Except PyErr Nat))
      = (.raised (.authenticationError "no" (some 401) none), 1) :=
  retry_non_retryable_single_invocation.2.2 Nat 3 _ _ rfl rfl

/-- C1 counterexample: with `max_attempts=3` an always-timeout operation is
invoked exactly 3 times, but what propagates is tenacity's `RetryError`
wrapping the timeout (the decorator leaves `reraise` at its default `False`),
not the timeout itself raised unchanged. -/
theorem retry_exhaustion_wraps_in_retryError :
    retry_on_failure 3 (fun _ => (.error PyErr.timeout : Except PyErr Nat))
      = (.retryError PyErr.timeout, 3)
    ∧ (RetryOutcome.retryError PyErr.timeout : RetryOutcome Nat).isRaised = false := by
  refine ⟨?_, rfl⟩
  simp [retry_on_failure, retryAux, retryExceptionTypes]

/-- C1 amended: with `max_attempts=3`, an operation that times out on attempts
1 and 2 and succeeds on attempt 3 returns the attempt-3 result after exactly 3
invocations; an always-timeout operation is invoked exactly 3 times and then a
`RetryError` wrapping the last timeout propagates (not the timeout itself). -/
theorem retry_three_attempts_behavior :
    (∀ (α : Type) (r : α),
        retry_on_failure 3 (fun n => if n < 3 then .error PyErr.timeout else .ok r)
          = (.ok r, 3))
  ∧ (∀ α : Type,
        retry_on_failure 3 (fun _ => (.error PyErr.timeout : Except PyErr α))
          = (.retryError PyErr.timeout, 3)) := by
  constructor
  · intro α r
    simp [retry_on_failure, retryAux, retryExceptionTypes]
  · intro α
    simp [retry_on_failure, retryAux, retryExceptionTypes]

/-- C3 counterexample: status 201 is inside [200, 299] yet `handle_response`
raises a `Generic` `APIError` instead of returning the parsed body (the code
tests `status_code == 200` only). -/
theorem handle_response_201_raises :
    (200 ≤ 201 ∧ 201 ≤ 299)
    ∧ handle_response ⟨201, "created", some (.obj []), none⟩ "GitHub"
        = .error (.apiError "GitHub API error: 201" (some 201) (some (.obj []))) :=
  ⟨by decide, rfl⟩

/-- C3 amended: only status 200 is the success case — a 200 response with any
JSON-decodable body (object, array, or other value) has the parsed body
returned unchanged; a status in [201, 299] whose body decodes to a JSON
object raises a `Generic` `APIError` carrying that status; for a non-object
body (e.g. the number 5) the uncaught `TypeError` from the
`'message' in error_data` check propagates instead of a typed error. -/
theorem handle_response_only_200_succeeds :
    (∀ (r : Response) (s : String) (j : Json),
        r.json = some j → r.status_code = 200 → handle_response r s = .ok j)
  ∧ (∀ (r : Response) (s : String) (kvs : List (String × Json)),
        r.json = some (.obj kvs) → 201 ≤ r.status_code → r.status_code ≤ 299 →
        ∃ m, handle_response r s
          = .error (.apiError m (some r.status_code) (some (.obj kvs))))
  ∧ (∀ s : String,
        handle_response ⟨201, "5", some (.num 5), none⟩ s = .error .typeError) := by
  refine ⟨?_, ?_, ?_⟩
  · intro r s j hj h200
    simp [handle_response, h200, hj]
  · intro r s kvs hj hlo hhi
    have h200 : (r.status_code == 200) = false := by
      simp [Nat.beq_eq_true_eq]; omega
    have h401 : (r.status_code == 401) = false := by
      simp [Nat.beq_eq_true_eq]; omega
    have h403 : (r.status_code == 403) = false := by
      simp [Nat.beq_eq_true_eq]; omega
    have h429 : (r.status_code == 429) = false := by
      simp [Nat.beq_eq_true_eq]; omega
    rw [handle_response, h200]
    simp only [Bool.false_eq_true, if_false, buildErrorMessage, hj, pyContains, h401, h403, h429,
      Bool.or_self, Bool.or_false, Bool.false_or]
    cases hlook : (kvs.any (fun kv => kv.1 == "message")) with
    | false => exact ⟨_, rfl⟩
    | true =>
        have := any_fst_beq_eq_lookup_isSome kvs "message"
        rw [hlook] at this
        obtain ⟨v, hv⟩ := Option.isSome_iff_exists.mp this.symm
        simp [pyGetItem, hv]
  · intro s
    rfl

/-- Witness for C3 amended: a 200 response with an array body returns the
parsed array, and a 204 with an object body raises `Generic`. -/
theorem handle_response_only_200_succeeds_witness :
    handle_response ⟨200, "[1]", some (.arr [.num 1]), none⟩ "GitHub"
      = .ok (.arr [.num 1]) :=
  handle_response_only_200_succeeds.1 ⟨200, "[1]", some (.arr [.num 1]), none⟩ "GitHub"
    (.arr [.num 1]) rfl rfl

/-- C4 counterexample: with `base_delay=1, max_delay=60` and zero fractional
second, the delay computed for attempt 2 is `min(1*2^1, 60) = 2` plus the
minimum 10% jitter, i.e. `2.2` — outside the claimed `[1.0, 1.1)` (and the
attempt-3 value `4.4` is outside the claimed `[2.0, 2.2)`). -/
theorem get_retry_delay_interval_violation :
    get_retry_delay 2 1 60 0 = 11 / 5
    ∧ ¬(get_retry_delay 2 1 60 0 < 11 / 10)
    ∧ get_retry_delay 3 1 60 0 = 22 / 5
    ∧ ¬(get_retry_delay 3 1 60 0 < 11 / 5) := by
  norm_num [get_retry_delay]

/-- C4 amended: the delay for attempt `n` is
`min(base_delay * 2^(n-1), max_delay)` plus jitter
`delay * 0.1 * (1 + fractional_second)`; for `base_delay=1.0, max_delay=60.0`
the attempt-2 delay lies in `[2.2, 2.4)` and the attempt-3 delay lies in
`[4.4, 4.8)` (the exponent already doubles the base at attempt 2, and the
jitter factor `1 + t` makes the jitter at least 10%, never less). -/
theorem get_retry_delay_intervals (t : ℚ) (h0 : 0 ≤ t) (h1 : t < 1) :
    (11 / 5 ≤ get_retry_delay 2 1 60 t ∧ get_retry_delay 2 1 60 t < 12 / 5)
  ∧ (22 / 5 ≤ get_retry_delay 3 1 60 t ∧ get_retry_delay 3 1 60 t < 24 / 5) := by
  have e2 : get_retry_delay 2 1 60 t = 2 + 2 * (1 / 10) * (1 + t) := by
    norm_num [get_retry_delay]
  have e3 : get_retry_delay 3 1 60 t = 4 + 4 * (1 / 10) * (1 + t) := by
    norm_num [get_retry_delay]
  rw [e2, e3]
  refine ⟨⟨by linarith, by linarith⟩, ⟨by linarith, by linarith⟩⟩

/-- Witness for C4 amended at `t = 1/2`. -/
theorem get_retry_delay_intervals_witness :
    ((11 : ℚ) / 5 ≤ get_retry_delay 2 1 60 (1 / 2) ∧ get_retry_delay 2 1 60 (1 / 2) < 12 / 5)
  ∧ ((22 : ℚ) / 5 ≤ get_retry_delay 3 1 60 (1 / 2) ∧ get_retry_delay 3 1 60 (1 / 2) < 24 / 5) :=
  get_retry_delay_intervals (1 / 2) (by norm_num) (by norm_num)

/-- C5 counterexample: a 429 with `Retry-After: soon` (present but not an
integer) does not sleep 60 seconds and does not raise `RateLimit` — `int()`
raises `ValueError` before any sleep. -/
theorem handle_rate_limit_nonint_header :
    handle_rate_limit ⟨429, "b", some (.obj []), some "soon"⟩ "Coda"
      = (none, .error PyErr.valueError)
    ∧ PyErr.valueError.isRateLimit = false := ⟨rfl, rfl⟩

/-- C5 amended: for a 429 with decodable body, a present non-empty
`Retry-After` that parses as a nonnegative integer `w` leads to a sleep of `w`
seconds followed by `RateLimit`; an absent header leads to a sleep of exactly
60 seconds followed by `RateLimit` (the sleep never suppresses the error); a
present non-empty header that does not parse as an integer makes `int()` raise
`ValueError` with no sleep and no `RateLimit`. -/
theorem handle_rate_limit_429_behavior :
    (∀ (r : Response) (s : String) (j : Json) (hdr : String) (w : Int),
        r.status_code = 429 → r.json = some j → r.retry_after = some hdr →
        hdr ≠ "" → pyInt? hdr = some w → 0 ≤ w →
        handle_rate_limit r s
          = (some w,
             .error (.rateLimitError (s ++ " rate limit exceeded") (some 429) (some j))))
  ∧ (∀ (r : Response) (s : String) (j : Json),
        r.status_code = 429 → r.json = some j → r.retry_after = none →
        handle_rate_limit r s
          = (some 60,
             .error (.rateLimitError (s ++ " rate limit exceeded") (some 429) (some j))))
  ∧ (∀ (r : Response) (s : String) (hdr : String),
        r.status_code = 429 → r.retry_after = some hdr → hdr ≠ "" → pyInt? hdr = none →
        handle_rate_limit r s = (none, .error PyErr.valueError)) := by
  refine ⟨?_, ?_, ?_⟩
  · intro r s j hdr w h429 hj hra hne hparse hnonneg
    rw [handle_rate_limit]
    simp [h429, hj, hra, hne, hparse, not_lt.mpr hnonneg]
  · intro r s j h429 hj hra
    rw [handle_rate_limit]
    simp [h429, hj, hra]
  · intro r s hdr h429 hra hne hparse
    rw [handle_rate_limit]
    simp [h429, hra, hne, hparse]

/-- Witness for C5 amended: `Retry-After: 7` sleeps 7 seconds then raises
`RateLimit`. -/
theorem handle_rate_limit_429_behavior_witness :
    handle_rate_limit ⟨429, "b", some (.obj []), some "7"⟩ "Coda"
      = (some 7, .error (.rateLimitError "Coda rate limit exceeded" (some 429) (some (.obj [])))) :=
  handle_rate_limit_429_behavior.1 ⟨429, "b", some (.obj []), some "7"⟩ "Coda" (.obj [])
    "7" 7 rfl rfl rfl (by decide) rfl (by decide)

/-- C6 counterexample: for a non-2xx response whose body decodes to an object
without a `message` field, the raised error's message is the bare
`"{service} API error: {status}"` — the raw response text is NOT appended as
the claim's detail rule requires. -/
theorem handle_response_detail_counterexample :
    handle_response ⟨500, "oops", some (.obj [("error", .str "x")]), none⟩ "GitHub"
      = .error (.apiError "GitHub API error: 500" (some 500)
          (some (.obj [("error", .str "x")])))
    ∧ "GitHub API error: 500" ≠ "GitHub API error: 500 - oops" := ⟨rfl, by decide⟩

/-- C6 amended: for every non-2xx response whose body decodes to a JSON
object, the raised error carries `response_body` = the parsed body, and its
message is `"{service} API error: {status_code}"` extended with
`" - {message field}"` only when the object has a `message` key (a decodable
body without that key gets no detail appended); when the body is not
JSON-decodable, the unguarded `response.json()` in the raise statement raises
`ValueError`, so no typed error (and no `\x7b"message": raw_text\x7d`-wrapped
body) is produced at all. -/
theorem handle_response_error_payload :
    (∀ (s : String) (r : Response) (kvs : List (String × Json)),
        r.json = some (.obj kvs) → r.status_code ≠ 200 →
        ∃ e, handle_response r s = .error e
          ∧ e.responseBody? = some (.obj kvs)
          ∧ e.message? = some
              (match kvs.lookup "message" with
               | some v => s ++ " API error: " ++ toString r.status_code ++ " - " ++ pyStr v
               | none => s ++ " API error: " ++ toString r.status_code))
  ∧ (∀ (s : String) (r : Response),
        r.json = none → r.status_code ≠ 200 →
        handle_response r s = .error PyErr.valueError) := by
  constructor
  · intro s r kvs hj h200
    have hb200 : (r.status_code == 200) = false := by simp [Nat.beq_eq_true_eq, h200]
    rw [handle_response, hb200]
    simp only [Bool.false_eq_true, if_false, buildErrorMessage, hj, pyContains,
      any_fst_beq_eq_lookup_isSome]
    cases hlook : kvs.lookup "message" with
    | none =>
        simp only [hlook, Option.isSome_none]
        by_cases h401 : r.status_code == 401 <;>
          by_cases h403 : r.status_code == 403 <;>
            by_cases h429 : r.status_code == 429 <;>
              simp [h401, h403, h429, PyErr.responseBody?, PyErr.message?]
    | some v =>
        simp only [hlook, Option.isSome_some, pyGetItem]
        have hassoc : s ++ " API error: " ++ toString r.status_code ++ " - " ++ pyStr v
            = (s ++ " API error: " ++ toString r.status_code) ++ (" - " ++ pyStr v) := by
          simp [String.append_assoc]
        by_cases h401 : r.status_code == 401 <;>
          by_cases h403 : r.status_code == 403 <;>
            by_cases h429 : r.status_code == 429 <;>
              simp [h401, h403, h429, PyErr.responseBody?, PyErr.message?, hassoc,
                String.append_assoc]
  · intro s r hj h200
    have hb200 : (r.status_code == 200) = false := by simp [Nat.beq_eq_true_eq, h200]
    rw [handle_response, hb200]
    simp [buildErrorMessage, hj]

/-- Witness for C6 amended: a non-decodable 500 body makes `handle_response`
raise `ValueError` rather than a typed error. -/
theorem handle_response_error_payload_witness :
    handle_response ⟨500, "<html>", none, none⟩ "Coda" = .error PyErr.valueError :=
  handle_response_error_payload.2 "Coda" ⟨500, "<html>", none, none⟩ rfl (by decide)

/-- C7 counterexample: a 401 response whose body is not JSON-decodable makes
`handle_response` raise `ValueError` (from the unguarded `response.json()` in
the raise statement), not an `Authentication` error. -/
theorem handle_response_401_nondecodable :
    handle_response ⟨401, "nope", none, none⟩ "Coda" = .error PyErr.valueError
    ∧ PyErr.valueError.isAuthentication = false := ⟨rfl, rfl⟩

/-- The message-building block can only fail with `TypeError` or `KeyError`
(from the uncaught `in` check or subscript), both of which trivially satisfy
the kind/status invariant. -/
lemma kindStatusInvariant_buildErrorMessage (base : String) (r : Response) (e : PyErr)
    (h : buildErrorMessage base r = .error e) : kindStatusInvariant e = true := by
  rw [buildErrorMessage] at h
  cases hj : r.json with
  | none => rw [hj] at h; exact Except.noConfusion h
  | some d =>
      rw [hj] at h
      match d with
      | .null | .bool _ | .num _ =>
          simp only [pyContains] at h
          cases Except.error.inj h; rfl
      | .str s0 =>
          simp only [pyContains] at h
          cases hc : decide ((s0.splitOn "message").length > 1) with
          | false => simp only [hc] at h; exact Except.noConfusion h
          | true =>
              simp only [hc, pyGetItem] at h
              cases Except.error.inj h; rfl
      | .arr xs =>
          simp only [pyContains] at h
          cases hc : xs.any (fun x => match x with | Json.str s => s == "message" | _ => false) with
          | false => simp only [hc] at h; exact Except.noConfusion h
          | true =>
              simp only [hc, pyGetItem] at h
              cases Except.error.inj h; rfl
      | .obj kvs =>
          simp only [pyContains] at h
          cases hc : kvs.any (fun kv => kv.1 == "message") with
          | false => simp only [hc] at h; exact Except.noConfusion h
          | true =>
              simp only [hc, pyGetItem] at h
              cases hlook : kvs.lookup "message" with
              | some v => simp only [hlook] at h; exact Except.noConfusion h
              | none =>
                  simp only [hlook] at h
                  cases Except.error.inj h; rfl

/-- C7 amended: when the body decodes to a JSON object, status 401/403 raises
`Authentication` with the status preserved, status 429 raises `RateLimit` with
status 429, and any other non-2xx status raises `Generic` with its status
preserved; unconditionally, every error either function raises satisfies the
kind/status invariant (`Authentication` ⟹ status ∈ \x7b401, 403\x7d,
`RateLimit` ⟹ status = 429). -/
theorem classifier_kind_status_invariant :
    (∀ (r : Response) (s : String) (kvs : List (String × Json)),
        r.json = some (.obj kvs) →
        (((r.status_code = 401 ∨ r.status_code = 403) →
            ∃ m, handle_response r s
              = .error (.authenticationError m (some r.status_code) (some (.obj kvs))))
         ∧ (r.status_code = 429 →
            ∃ m, handle_response r s
              = .error (.rateLimitError m (some 429) (some (.obj kvs))))
         ∧ (¬(200 ≤ r.status_code ∧ r.status_code ≤ 299) →
            r.status_code ≠ 401 → r.status_code ≠ 403 → r.status_code ≠ 429 →
            ∃ m, handle_response r s
              = .error (.apiError m (some r.status_code) (some (.obj kvs))))))
  ∧ (∀ (r : Response) (s : String) (e : PyErr),
        handle_response r s = .error e → kindStatusInvariant e = true)
  ∧ (∀ (r : Response) (s : String) (e : PyErr),
        (handle_rate_limit r s).2 = .error e → kindStatusInvariant e = true) := by
  have hmsg : ∀ (kvs : List (String × Json)) (base : String) (r : Response),
      r.json = some (.obj kvs) → ∃ m, buildErrorMessage base r = .ok m := by
    intro kvs base r hj
    rw [buildErrorMessage, hj]
    simp only [pyContains, any_fst_beq_eq_lookup_isSome]
    cases hlook : kvs.lookup "message" with
    | none => simp [hlook]
    | some v => simp [hlook, pyGetItem]
  refine ⟨?_, ?_, ?_⟩
  · intro r s kvs hj
    obtain ⟨m, hm⟩ := hmsg kvs (s ++ " API error: " ++ toString r.status_code) r hj
    refine ⟨?_, ?_, ?_⟩
    · intro hst
      have hb200 : (r.status_code == 200) = false := by
        simp [Nat.beq_eq_true_eq]; omega
      have hb : (r.status_code == 401 || r.status_code == 403) = true := by
        rcases hst with h | h <;> simp [h]
      rw [handle_response, hb200]
      simp only [Bool.false_eq_true, if_false, hm, hj, hb, if_true]
      exact ⟨m, rfl⟩
    · intro hst
      have hb200 : (r.status_code == 200) = false := by
        simp [Nat.beq_eq_true_eq]; omega
      have hb : (r.status_code == 401 || r.status_code == 403) = false := by
        simp [Nat.beq_eq_true_eq]; omega
      have hb429 : (r.status_code == 429) = true := by simp [hst]
      rw [handle_response, hb200]
      simp only [Bool.false_eq_true, if_false, hm, hj, hb, hb429, if_true]
      exact ⟨m, by rw [hst]⟩
    · intro hrange h401 h403 h429
      have hb200 : (r.status_code == 200) = false := by
        simp [Nat.beq_eq_true_eq]; omega
      have hb : (r.status_code == 401 || r.status_code == 403) = false := by
        simp [Nat.beq_eq_true_eq]; omega
      have hb429 : (r.status_code == 429) = false := by
        simp [Nat.beq_eq_true_eq]; omega
      rw [handle_response, hb200]
      simp only [Bool.false_eq_true, if_false, hm, hj, hb, hb429]
      exact ⟨m, rfl⟩
  · intro r s e h
    by_cases hb200 : (r.status_code == 200) = true
    · simp only [handle_response, hb200, if_true] at h
      cases hj : r.json with
      | some j =>
          simp only [hj] at h
          exact Except.noConfusion h
      | none =>
          simp only [hj] at h
          cases Except.error.inj h; rfl
    · cases hbm : buildErrorMessage (s ++ " API error: " ++ toString r.status_code) r with
      | error e0 =>
          simp only [handle_response, hb200, Bool.false_eq_true, if_false, hbm] at h
          cases Except.error.inj h
          exact kindStatusInvariant_buildErrorMessage _ r _ hbm
      | ok msg =>
          simp only [handle_response, hb200, Bool.false_eq_true, if_false, hbm] at h
          cases hj : r.json with
          | none =>
              simp only [hj] at h
              cases Except.error.inj h; rfl
          | some j =>
              simp only [hj] at h
              by_cases hb : (r.status_code == 401 || r.status_code == 403) = true
              · rw [if_pos hb] at h
                cases Except.error.inj h
                have hor : r.status_code = 401 ∨ r.status_code = 403 := by simpa using hb
                rcases hor with h' | h' <;> simp [kindStatusInvariant, h']
              · rw [if_neg hb] at h
                by_cases hb429 : (r.status_code == 429) = true
                · rw [if_pos hb429] at h
                  cases Except.error.inj h
                  have h' : r.status_code = 429 := by simpa using hb429
                  simp [kindStatusInvariant, h']
                · rw [if_neg hb429] at h
                  cases Except.error.inj h; rfl
  · intro r s e h
    by_cases hb429 : (r.status_code == 429) = true
    · cases hra : r.retry_after with
      | none =>
          cases hj : r.json with
          | none =>
              simp only [handle_rate_limit, hb429, if_true, hra, hj] at h
              cases Except.error.inj h; rfl
          | some j =>
              simp only [handle_rate_limit, hb429, if_true, hra, hj] at h
              cases Except.error.inj h; rfl
      | some hdr =>
          by_cases hne : hdr = ""
          · subst hne
            cases hj : r.json with
            | none =>
                simp only [handle_rate_limit, hb429, if_true, hra, hj, ne_eq,
                  not_true_eq_false, if_false] at h
                cases Except.error.inj h; rfl
            | some j =>
                simp only [handle_rate_limit, hb429, if_true, hra, hj, ne_eq,
                  not_true_eq_false, if_false] at h
                cases Except.error.inj h; rfl
          · cases hparse : pyInt? hdr with
            | none =>
                simp only [handle_rate_limit, hb429, if_true, hra, hne, hparse, ne_eq,
                  not_false_eq_true, if_true] at h
                cases Except.error.inj h; rfl
            | some w =>
                by_cases hneg : w < 0
                · simp only [handle_rate_limit, hb429, if_true, hra, hne, hparse, hneg, ne_eq,
                    not_false_eq_true, if_true] at h
                  cases Except.error.inj h; rfl
                · cases hj : r.json with
                  | none =>
                      simp only [handle_rate_limit, hb429, if_true, hra, hne, hparse, hneg, hj,
                        ne_eq, not_false_eq_true, if_true, if_false] at h
                      cases Except.error.inj h; rfl
                  | some j =>
                      simp only [handle_rate_limit, hb429, if_true, hra, hne, hparse, hneg, hj,
                        ne_eq, not_false_eq_true, if_true, if_false] at h
                      cases Except.error.inj h; rfl
    · simp only [handle_rate_limit, hb429, Bool.false_eq_true, if_false] at h
      exact Except.noConfusion h

/-- Witness for C7 amended: the `RateLimit` error raised by
`handle_rate_limit` on a concrete 429 satisfies the kind/status invariant. -/
theorem classifier_kind_status_invariant_witness :
    kindStatusInvariant
        (PyErr.rateLimitError "Coda rate limit exceeded" (some 429) (some (.obj []))) = true :=
  classifier_kind_status_invariant.2.2 ⟨429, "b", some (.obj []), none⟩ "Coda"
    (.rateLimitError "Coda rate limit exceeded" (some 429) (some (.obj []))) rfl
